import Mathlib

/-
  Verification development for the Paper Planes PM tool.

  Shallow embedding of the parts of the code relevant to the frozen claims:
  the Excel registry import (src/api/excel_import.py), the methodology catalog
  seeding (src/database/init_data.py), the interactive project-creation flow
  (src/app.py, show_step1_basic_info / show_step4_review_create together with
  src/api/project_generator.py create_project_with_gdrive_sync), and the
  Google Drive folder operations (src/api/google_drive_client.py).

  Modelling conventions:
  - Dates are integers (a date ordinal; the literal 20250101 is used as a
    readable surrogate for 2025-01-01 — the encoding is order-preserving).
  - Spreadsheet cells are a small inductive `Cell` covering the pandas values
    the code distinguishes: NaN, string, Timestamp, plain number.
  - The Project ORM class is modelled with exactly the mapped attributes
    declared in database/models.py.  run_migrations in
    database/connection.py adds further registry columns to the SQLite
    table via raw sqlite3, but that never maps them on the ORM class, so
    SQLAlchemy's declarative constructor rejects the registry keywords
    passed by the importer: Project(**project_data) raises TypeError on the
    first unmapped key.  The constructor's keyword check is modelled
    explicitly (ormProjectConstructorError over the project_data key list),
    and the row loop records the resulting per-row error exactly as the
    source's per-row except handler does.
  - External collaborators (LLM generation, Google Drive availability, the
    commit outcome) are modelled by outcome flags, as the spec treats them
    as opaque collaborators.
-/

namespace PaperPlanes

/-
  Executable string helpers.  The library's String.trim, toUpper, splitOn …
  are loop- or Substring-based and do not reduce inside the kernel, so the
  Python string operations the code uses are modelled here by structurally
  recursive functions over the character list.
-/

/-- Python str.upper (ASCII letters, the range the concrete inputs use). -/
def strUpper (s : String) : String := String.mk (s.data.map Char.toUpper)

/-- Python str.lower (ASCII letters). -/
def strLower (s : String) : String := String.mk (s.data.map Char.toLower)

/-- The whitespace characters Python str.strip removes. -/
def isSpaceChar (c : Char) : Bool :=
  c = ' ' || c = '\t' || c = '\n' || c = '\r' || c = '\x0c' || c = '\x0b'

/-- Python str.strip. -/
def strTrim (s : String) : String :=
  String.mk (((s.data.dropWhile isSpaceChar).reverse.dropWhile isSpaceChar).reverse)

/-- Python slicing s[:n] (by code points). -/
def strTake (s : String) (n : Nat) : String := String.mk (s.data.take n)

/-- Python str.startswith. -/
def strStartsWith (s pat : String) : Bool := pat.data.isPrefixOf s.data

/-- Helper of splitOnChar: accumulates the current piece. -/
def splitOnCharAux (sep : Char) : List Char → List Char → List String
  | [], acc => [String.mk acc.reverse]
  | c :: cs, acc =>
    if c = sep then String.mk acc.reverse :: splitOnCharAux sep cs []
    else splitOnCharAux sep cs (c :: acc)

/-- Python str.split on a one-character separator. -/
def splitOnChar (sep : Char) (s : String) : List String :=
  splitOnCharAux sep s.data []

/-- Digit-string to number, none when empty or holding a non-digit. -/
def digitsToNat : List Char → Option Nat
  | [] => none
  | cs => go cs 0
where go : List Char → Nat → Option Nat
  | [], acc => some acc
  | c :: cs, acc => if c.isDigit then go cs (acc * 10 + (c.toNat - 48)) else none

/-- Python int(s) on a decimal-integer literal string. -/
def strToNat (s : String) : Option Nat := digitsToNat s.data

/-- Python int(float(s)) restricted to integer literals with an optional
sign (decimal strings, which Python would truncate, are not parsed). -/
def strToInt (s : String) : Option Int :=
  match s.data with
  | '-' :: cs => (digitsToNat cs).map (fun n => -(n : Int))
  | cs => (digitsToNat cs).map (fun n => (n : Int))

/-- A spreadsheet cell as the import code distinguishes them: pandas NaN,
a string, a pandas Timestamp (carrying its date ordinal), or a number. -/
inductive Cell where
  | na
  | str (s : String)
  | ts (day : Int)
  | num (n : Int)
deriving Repr, DecidableEq

/-- Python truthiness test used by parse_google_drive_url (`not url_or_text`):
NaN, the empty string and the number 0 are falsy. -/
def Cell.falsy : Cell → Bool
  | .na => true
  | .str s => s = ""
  | .num n => n = 0
  | .ts _ => false

/-- Python `str(cell)`: identity on strings, decimal rendering of numbers and
timestamps, and the text nan for NaN. -/
def Cell.toStr : Cell → String
  | .na => "nan"
  | .str s => s
  | .num n => toString n
  | .ts d => toString d

/-- Mirrors parse_google_drive_url of src/api/excel_import.py: None for
NaN/falsy cells, the trimmed string when it starts with http, else None. -/
def parse_google_drive_url (c : Cell) : Option String :=
  if c = .na || c.falsy then none
  else
    let url_str := strTrim c.toStr
    if strStartsWith url_str "http" then some url_str else none

/-- Model of `pd.to_datetime(s).date()` on a string cell: parses a strict
YYYY-MM-DD literal into the ordinal surrogate y*10000+m*100+d, failing on
anything else (a shallow stand-in for the pandas date parser; the encoding
preserves the calendar order). -/
def parseYMD (s : String) : Option Int :=
  match splitOnChar '-' s with
  | [y, m, d] =>
    match strToNat y, strToNat m, strToNat d with
    | some yn, some mn, some dn =>
      if 1 ≤ mn && mn ≤ 12 && 1 ≤ dn && dn ≤ 31 then
        some (Int.ofNat (yn * 10000 + mn * 100 + dn))
      else none
    | _, _, _ => none
  | _ => none

/-- The start-date cell parse of import_projects_from_excel: NaN falls back to
`date.today()` (the `today` argument), a string goes through the date parser
(and can fail the row), a Timestamp yields its date; a raw number is carried
through as-is, as the Python code leaves such a value untouched. -/
def parseStartDate (today : Int) : Cell → Except String Int
  | .na => .ok today
  | .str s =>
    match parseYMD s with
    | some d => .ok d
    | none => .error ("Unknown datetime string format: " ++ s)
  | .ts d => .ok d
  | .num n => .ok n

/-- The optional-date cell parse (`pd.notna(c) and isinstance(c, Timestamp)`):
only a Timestamp produces a date, everything else is None.  Never fails. -/
def parseOptTimestamp : Cell → Option Int
  | .ts d => some d
  | _ => none

/-- The optional-integer cell parse (`int(float(x)) if pd.notna(x)`):
NaN gives None, a number its value, an integer-literal string its value, and
any other string or a Timestamp raises (fails the row).  Decimal strings,
which Python would truncate, are modelled as failures; no claim's input uses
one. -/
def parseOptIntField (c : Cell) : Except String (Option Int) :=
  match c with
  | .na => .ok none
  | .num n => .ok (some n)
  | .ts _ => .error "cannot convert the series to int"
  | .str s =>
    match strToInt (strTrim s) with
    | some n => .ok (some n)
    | none => .error ("could not convert string to float: " ++ s)

/-- A row of the registry sheet, one field per column the import reads.
Field names transliterate the Russian column headers:
nameCell = Название, folderLinkCell = Ссылка на папку, appendixCell =
Приложение, problemMapCell = Карта проблем, adminScaleCell = Админ шкала,
pertCell = Перт, startDateCell = Дата старта, idealPhaseEndCell = Идеальная
дата окончания этапа, contractPhaseEndCell = Дата окончания по договору
(этапа), idealProjectEndCell = Идеальная дата окончания проекта,
contractProjectEndCell = Дата окончания по договору (проекта),
phaseWeeksCell = Кол-во недель этап, totalWeeksCell = Кол-во недель, and the
five buffer columns. -/
structure ExRow where
  nameCell : Cell := .na
  folderLinkCell : Cell := .na
  appendixCell : Cell := .na
  problemMapCell : Cell := .na
  adminScaleCell : Cell := .na
  pertCell : Cell := .na
  startDateCell : Cell := .na
  idealPhaseEndCell : Cell := .na
  contractPhaseEndCell : Cell := .na
  idealProjectEndCell : Cell := .na
  contractProjectEndCell : Cell := .na
  phaseWeeksCell : Cell := .na
  totalWeeksCell : Cell := .na
  daysToRealPhaseEndCell : Cell := .na
  daysToIdealPhaseEndCell : Cell := .na
  daysToPhaseNoBufferCell : Cell := .na
  phaseBufferCell : Cell := .na
  projectBufferCell : Cell := .na
deriving Repr, DecidableEq

/-- A row of the projects table, with exactly the columns that
database/models.py declares as mapped attributes of Project (the registry
columns that run_migrations adds to the SQLite table are NOT mapped on the
ORM class and so never appear on a constructed Project object).  Field
defaults mirror the model's column defaults. -/
structure ProjectRecord where
  project_code : String
  name : String
  client : String
  contract_signed_date : Option Int := none
  prepayment_date : Int
  start_date : Int
  end_date : Int
  payment_scenario : String := "thirds"
  status : String := "draft"
  group : String
  project_type : String
  budget_total : Option Int := none
  budget_currency : String := "RUB"
  vat_included : Bool := true
  vat_rate : Int := 5
  duration_weeks : Option Int := none
  sales_notes : Option String := none
  project_specifics : Option String := none
  google_drive_folder_id : Option String := none
  google_drive_folder_url : Option String := none
  obsidian_path : Option String := none
  created_by : String := ""
deriving Repr, DecidableEq

/-- A persisted SetupChecklistItem row (the fields the claims touch). -/
structure ChecklistRow where
  project_id : Nat
  item_number : Nat
  title : String
  description : String
  is_completed : Bool := false
  is_approved : Bool := false
deriving Repr, DecidableEq

/-- The relational store as the import sees it: committed project rows, rows
added to the session but not yet committed (flushed, hence visible to
queries on the same session), and the setup-checklist table, which no
branch of the registry importer ever touches. -/
structure ImportDB where
  projects : List ProjectRecord
  pending : List ProjectRecord
  checklist : List ChecklistRow
deriving Repr, DecidableEq

/-- The statistics dict built by import_projects_from_excel. -/
structure ImportStats where
  total_rows : Nat
  imported : Nat
  skipped : Nat
  errors : List String
  projectsOut : List (String × String)
deriving Repr, DecidableEq

/-- State threaded through the per-row loop of the import. -/
structure ImportState where
  stats : ImportStats
  db : ImportDB
deriving Repr, DecidableEq

/-- Project names visible to `db_session.query(Project).filter_by(name=...)`:
committed rows plus rows already added and flushed in this session. -/
def sessionNames (s : ImportState) : List String :=
  (s.db.projects ++ s.db.pending).map (·.name)

/-- The empty-row test of the import loop: `pd.isna(row.get('Название')) or
not str(row.get('Название')).strip()`; on a non-empty cell it returns the
trimmed name. -/
def nameOf (r : ExRow) : Option String :=
  if r.nameCell = .na then none
  else
    let t := strTrim r.nameCell.toStr
    if t = "" then none else some t

/-- `project_code = f"IMPORT_{idx+1}_{project_name[:10].upper()}"`. -/
def importCodeOf (idx : Nat) (project_name : String) : String :=
  "IMPORT_" ++ toString (idx + 1) ++ "_" ++ strUpper (strTake project_name 10)

/-- The fallible field parses of one registry row, in the order the Python
code performs them; the first failure aborts the row. -/
structure ParsedFields where
  start_date : Int
  ideal_phase_end : Option Int
  contract_phase_end : Option Int
  ideal_project_end : Option Int
  contract_project_end : Option Int
  phase_weeks : Option Int
  total_weeks : Option Int
  days_to_real_phase_end : Option Int
  days_to_ideal_phase_end : Option Int
  days_to_phase_no_buffer : Option Int
  phase_buffer : Option Int
  project_buffer : Option Int
deriving Repr, DecidableEq

/-- Runs the date and integer parses of the import loop for one row. -/
def parsedFields (today : Int) (r : ExRow) : Except String ParsedFields := do
  let start_date ← parseStartDate today r.startDateCell
  let phase_weeks ← parseOptIntField r.phaseWeeksCell
  let total_weeks ← parseOptIntField r.totalWeeksCell
  let days_to_real_phase_end ← parseOptIntField r.daysToRealPhaseEndCell
  let days_to_ideal_phase_end ← parseOptIntField r.daysToIdealPhaseEndCell
  let days_to_phase_no_buffer ← parseOptIntField r.daysToPhaseNoBufferCell
  let phase_buffer ← parseOptIntField r.phaseBufferCell
  let project_buffer ← parseOptIntField r.projectBufferCell
  pure
    { start_date := start_date
      ideal_phase_end := parseOptTimestamp r.idealPhaseEndCell
      contract_phase_end := parseOptTimestamp r.contractPhaseEndCell
      ideal_project_end := parseOptTimestamp r.idealProjectEndCell
      contract_project_end := parseOptTimestamp r.contractProjectEndCell
      phase_weeks := phase_weeks
      total_weeks := total_weeks
      days_to_real_phase_end := days_to_real_phase_end
      days_to_ideal_phase_end := days_to_ideal_phase_end
      days_to_phase_no_buffer := days_to_phase_no_buffer
      phase_buffer := phase_buffer
      project_buffer := project_buffer }

/-- The attribute names present on the Project ORM class of
database/models.py: its primary key, every mapped column, and its
relationship attributes — exactly what `hasattr(Project, k)` accepts in
SQLAlchemy's declarative constructor. -/
def PROJECT_MAPPED_ATTRS : List String :=
  ["id", "project_code", "name", "client", "contract_signed_date",
   "prepayment_date", "start_date", "end_date", "payment_scenario", "status",
   "group", "project_type", "budget_total", "budget_currency", "vat_included",
   "vat_rate", "duration_weeks", "sales_notes", "project_specifics",
   "google_drive_folder_id", "google_drive_folder_url", "obsidian_path",
   "created_by", "created_at", "updated_at", "documents",
   "methodology_selections", "payment_stages", "deliverables", "sprints"]

/-- The keys of the project_data dict the import loop builds
(src/api/excel_import.py lines 173-209), in insertion order — the order in
which the ORM constructor sees the keywords. -/
def project_data_keys : List String :=
  ["project_code", "name", "client", "group", "project_type", "status",
   "start_date", "prepayment_date", "end_date",
   "google_drive_folder_url", "contract_appendix_url", "problem_map_url",
   "adminscale_url", "pert_url",
   "ideal_phase_end_date", "phase_duration_weeks", "contract_phase_end_date",
   "ideal_project_end_date", "contract_project_end_date", "duration_weeks",
   "days_to_real_phase_end", "days_to_ideal_phase_end",
   "days_to_phase_end_no_buffer", "phase_buffer_days", "project_buffer_days",
   "created_by", "created_at"]

/-- SQLAlchemy's declarative constructor keyword check: walking the keyword
keys in order, the first one that is not an attribute of the Project class
raises `TypeError("%r is an invalid keyword argument for Project")`; with
no such key the construction succeeds. -/
def ormProjectConstructorError (keys : List String) : Option String :=
  (keys.find? (fun k => !(PROJECT_MAPPED_ATTRS.contains k))).map
    (fun k => "'" ++ k ++ "' is an invalid keyword argument for Project")

/-- The duplicate-skip message of the import loop. -/
def dupMsg (project_name : String) : String :=
  "Project '" ++ project_name ++ "' already exists, skipping"

/-- The per-row exception message of the import loop. -/
def rowErrMsg (idx : Nat) (r : ExRow) (e : String) : String :=
  "Row " ++ toString (idx + 1) ++ " (" ++ r.nameCell.toStr ++ "): " ++ e

/-- One iteration of the import loop (the db_session branch): skip empty
names, skip names already present in the session (appending the duplicate
message), collect a per-row parse failure, and otherwise reach
`Project(**project_data)` — whose keyword check rejects the first unmapped
registry key, so the per-row handler appends that TypeError message (the
succeeding-constructor branch, where the source would add, flush and count
the row, is unreachable for this key list: see orm_always_fails). -/
def stepRow (today : Int) (default_group : String) (idx : Nat) (r : ExRow)
    (s : ImportState) : ImportState :=
  match nameOf r with
  | none =>
    { s with stats := { s.stats with skipped := s.stats.skipped + 1 } }
  | some project_name =>
    if project_name ∈ sessionNames s then
      { s with stats := { s.stats with
          skipped := s.stats.skipped + 1
          errors := s.stats.errors ++ [dupMsg project_name] } }
    else
      match parsedFields today r with
      | .error e =>
        { s with stats := { s.stats with
            errors := s.stats.errors ++ [rowErrMsg idx r e] } }
      | .ok _ =>
        match ormProjectConstructorError project_data_keys with
        | some te =>
          { s with stats := { s.stats with
              errors := s.stats.errors ++ [rowErrMsg idx r te] } }
        | none => s

/-- The whole per-row loop, carrying the running row index. -/
def processRows (today : Int) (default_group : String) :
    Nat → List ExRow → ImportState → ImportState
  | _, [], s => s
  | idx, r :: rs, s =>
    processRows today default_group (idx + 1) rs
      (stepRow today default_group idx r s)

/-- The initial statistics/session state of import_projects_from_excel. -/
def initImportState (rows : List ExRow) (db0 : ImportDB) : ImportState :=
  { stats := { total_rows := rows.length, imported := 0, skipped := 0,
               errors := [], projectsOut := [] }
    db := { db0 with pending := [] } }

/-- import_projects_from_excel of src/api/excel_import.py: process every row,
then — when anything was imported — attempt the single final commit
(`commitOutcome` none = success, some e = the raised error): on success the
pending rows become durable, on failure the session is rolled back, the
failure is appended to the errors and the imported count is reset to 0. -/
def import_projects_from_excel (today : Int) (default_group : String)
    (rows : List ExRow) (db0 : ImportDB) (commitOutcome : Option String) :
    ImportStats × ImportDB :=
  let s1 := processRows today default_group 0 rows (initImportState rows db0)
  if s1.stats.imported > 0 then
    match commitOutcome with
    | none =>
      (s1.stats,
       { s1.db with projects := s1.db.projects ++ s1.db.pending, pending := [] })
    | some e =>
      ({ s1.stats with
          errors := s1.stats.errors ++ ["Database commit failed: " ++ e]
          imported := 0 },
       { s1.db with pending := [] })
  else
    (s1.stats, s1.db)

/-- A row of the methodologies reference table
(src/database/models.py Methodology). -/
structure MethodologyDef where
  code : String
  name : String
  category : String
  description : String
  typical_effort_hours : Nat
  requires_details : Bool
deriving Repr, DecidableEq

/-- BPM_METHODOLOGIES of src/database/init_data.py (11 mining methods). -/
def BPM_METHODOLOGIES : List MethodologyDef :=
  [ { code := "БПМ1", name := "Опросы", category := "БПМ",
      description := "Количественные исследования с большими выборками",
      typical_effort_hours := 16, requires_details := true },
    { code := "БПМ2", name := "Интервью с клиентами", category := "БПМ",
      description := "Качественные интервью с клиентами для выявления инсайтов",
      typical_effort_hours := 24, requires_details := true },
    { code := "БПМ3", name := "Оргинтервью", category := "БПМ",
      description := "Организационные интервью - анализ проблем через интервью с сотрудниками",
      typical_effort_hours := 12, requires_details := true },
    { code := "БПМ4", name := "Кабинетный анализ", category := "БПМ",
      description := "Desk research: анализ вторичных данных, отчетов, документации",
      typical_effort_hours := 8, requires_details := false },
    { code := "БПМ5", name := "Хронометраж", category := "БПМ",
      description := "Наблюдение и измерение временных затрат на процессы",
      typical_effort_hours := 16, requires_details := true },
    { code := "БПМ6", name := "Тайник", category := "БПМ",
      description := "Mystery shopping / Тайный покупатель",
      typical_effort_hours := 12, requires_details := true },
    { code := "БПМ7", name := "Ассесмент", category := "БПМ",
      description := "Оценка компетенций сотрудников и команды",
      typical_effort_hours := 8, requires_details := true },
    { code := "БПМ8", name := "Фокус-группа", category := "БПМ",
      description := "Групповая дискуссия для выявления коллективных мнений",
      typical_effort_hours := 10, requires_details := true },
    { code := "БПМ9", name := "Анализ база", category := "БПМ",
      description := "Анализ клиентской базы и данных CRM",
      typical_effort_hours := 20, requires_details := true },
    { code := "БПМ10", name := "Анализ рынка", category := "БПМ",
      description := "Исследование рыночной конъюнктуры и конкурентов",
      typical_effort_hours := 16, requires_details := true },
    { code := "БПМ11", name := "Анализ производства", category := "БПМ",
      description := "Исследование производственных процессов и мощностей",
      typical_effort_hours := 12, requires_details := true } ]

/-- BPA_METHODOLOGIES of src/database/init_data.py (25 assembling methods). -/
def BPA_METHODOLOGIES : List MethodologyDef :=
  [ { code := "БПА1", name := "Целевые клиентские группы (ЦКГ)", category := "БПА",
      description := "Сегментация и описание целевых клиентских групп",
      typical_effort_hours := 8, requires_details := true },
    { code := "БПА2", name := "Приоритетные рынки (Оценка по 5 силам Портера)", category := "БПА",
      description := "Оценка и приоритизация рынков",
      typical_effort_hours := 6, requires_details := true },
    { code := "БПА3", name := "Как сегменты", category := "БПА",
      description := "Сегментация рынка",
      typical_effort_hours := 6, requires_details := true },
    { code := "БПА4", name := "Как регионы", category := "БПА",
      description := "Региональная сегментация",
      typical_effort_hours := 6, requires_details := true },
    { code := "БПА5", name := "Целевой трафик-мэп (TM)", category := "БПА",
      description := "Карта целевого трафика",
      typical_effort_hours := 8, requires_details := true },
    { code := "БПА6", name := "Бизнес-процессы", category := "БПА",
      description := "Описание бизнес-процессов",
      typical_effort_hours := 10, requires_details := true },
    { code := "БПА7", name := "Кроссфункциональные процессы (КФП)", category := "БПА",
      description := "Кроссфункциональные процессы (например, выравнивание)",
      typical_effort_hours := 10, requires_details := true },
    { code := "БПА8", name := "Процессы функциональных колодцев", category := "БПА",
      description := "БП + примечание, например, CM, ОП, HR и т.п.",
      typical_effort_hours := 8, requires_details := true },
    { code := "БПА9", name := "Целевая Ассортиментная матрица (AM)", category := "БПА",
      description := "Ассортиментная матрица",
      typical_effort_hours := 8, requires_details := true },
    { code := "БПА10", name := "Ценовая политика (Цена)", category := "БПА",
      description := "Разработка ценовой политики",
      typical_effort_hours := 8, requires_details := true },
    { code := "БПА11", name := "Позиционирование (Бренд/УТП/EVP)", category := "БПА",
      description := "Позиционирование бренда и ценностное предложение",
      typical_effort_hours := 10, requires_details := true },
    { code := "БПА12", name := "CJM/EJM", category := "БПА",
      description := "Customer Journey Map / Employee Journey Map",
      typical_effort_hours := 10, requires_details := true },
    { code := "БПА13", name := "Оргструктура (ОС)", category := "БПА",
      description := "Оргструктура + примечание, например, ОМ, ОП, HR и т.п.",
      typical_effort_hours := 6, requires_details := true },
    { code := "БПА14", name := "Модель компетенций (МК)", category := "БПА",
      description := "Разработка модели компетенций",
      typical_effort_hours := 8, requires_details := true },
    { code := "БПА15", name := "Материалы поддержки продаж (МПП)", category := "БПА",
      description := "МПП, включая книгу продаж, скрипты и т.п.",
      typical_effort_hours := 12, requires_details := true },
    { code := "БПА16", name := "ИТ-стек (БТ и тп)", category := "БПА",
      description := "Описание ИТ-стека и бизнес-технологий",
      typical_effort_hours := 6, requires_details := true },
    { code := "БПА17", name := "Целевая модель данных (ЦМД)", category := "БПА",
      description := "Целевая модель данных",
      typical_effort_hours := 10, requires_details := true },
    { code := "БПА18", name := "Рычаги роста (Брейн)", category := "БПА",
      description := "Рычаги роста по доходам или расходам",
      typical_effort_hours := 8, requires_details := true },
    { code := "БПА19", name := "Финмодель (ФМ) или Финмашина", category := "БПА",
      description := "Финансовая модель или Финмашина",
      typical_effort_hours := 16, requires_details := true },
    { code := "БПА20", name := "Модель Остервальдера и Пинье (ОиП) или Бизнес-модель (БМ)", category := "БПА",
      description := "Бизнес-модель Остервальдера и Пинье или Бизнес-модель Canvas",
      typical_effort_hours := 8, requires_details := true },
    { code := "БПА21", name := "Бизнес-календари и Операционная система работ (ОСР)", category := "БПА",
      description := "Бизнес-календари и ОСР",
      typical_effort_hours := 8, requires_details := true },
    { code := "БПА22", name := "Должностные инструкции (ДИ) или папка сотрудника", category := "БПА",
      description := "Должностные инструкции или папка сотрудника",
      typical_effort_hours := 8, requires_details := true },
    { code := "БПА23", name := "Функциональная стратегия", category := "БПА",
      description := "Разработка функциональной стратегии",
      typical_effort_hours := 10, requires_details := true },
    { code := "БПА24", name := "Найм", category := "БПА",
      description := "Процессы и материалы найма",
      typical_effort_hours := 6, requires_details := true },
    { code := "БПА25", name := "Проведение обучения", category := "БПА",
      description := "Материалы и процессы обучения",
      typical_effort_hours := 8, requires_details := true } ]

/-- import_methodologies of src/database/init_data.py over the methodologies
table: if the table already holds any row the import is skipped, otherwise
the 11 BPM and 25 BPA catalog rows are inserted and committed. -/
def import_methodologies (db : List MethodologyDef) : List MethodologyDef :=
  if db.length > 0 then db
  else db ++ BPM_METHODOLOGIES ++ BPA_METHODOLOGIES

/-- One entry of the fixed setup-checklist template. -/
structure ChecklistTemplateItem where
  item_number : Nat
  title : String
  description : String
deriving Repr, DecidableEq

/-- SETUP_CHECKLIST_ITEMS of src/database/models.py: the fixed, ordered
10-item template instantiated for every interactively created project. -/
def SETUP_CHECKLIST_ITEMS : List ChecklistTemplateItem :=
  [ { item_number := 1,
      title := "Создание чата с клиентом и представление команды",
      description := "Создать чат с клиентом в Telegram/WhatsApp, представить команду проекта" },
    { item_number := 2,
      title := "Выбор менеджера проекта",
      description := "Выбрать менеджера проекта из рабочей группы" },
    { item_number := 3,
      title := "Получение и обработка оргструктуры",
      description := "Получить файл оргструктуры клиента, добавить комментарии: кто важен, кто LPR и т.д." },
    { item_number := 4,
      title := "Отправить запрос стартовых материалов",
      description := "Отправить клиенту ссылку на Google Spreadsheet шаблон для запроса материалов" },
    { item_number := 5,
      title := "Согласовать дату открывающей сессии",
      description := "Согласовать с клиентом дату и время открывающей сессии" },
    { item_number := 6,
      title := "Создание Miro проекта",
      description := "Создать Miro board для проекта" },
    { item_number := 7,
      title := "Добавить проект в финтаблицу",
      description := "Добавить проект в финансовую таблицу Paper Planes" },
    { item_number := 8,
      title := "Добавить проект в таблицу Производства по деньгам",
      description := "Добавить проект в таблицу отслеживания производства" },
    { item_number := 9,
      title := "Добавить проект в борд инициирования в Kaiten",
      description := "Создать карточку проекта в борде инициирования Kaiten" },
    { item_number := 10,
      title := "Создан внутренний чат проекта в Telegram",
      description := "Создать внутренний чат команды проекта в Telegram" } ]

/-- The step-1 form fields (show_step1_basic_info); dates are always set by
the date pickers, project_code presence is tracked as a flag. -/
structure Step1Form where
  project_name : String
  client_name : String
  start_date : Int
  end_date : Int
  group : String
  project_type : String
  has_project_code : Bool
deriving Repr, DecidableEq

/-- The validation run by the step-1 next-button handler in order: all
required fields non-empty (the two date widgets always return a date, hence
are always truthy), end date not earlier than start date, and a generated
project code present.  Only when it passes does the flow advance to step 2
with the entered data saved. -/
def step1Passes (f : Step1Form) : Bool :=
  if f.project_name = "" || f.client_name = "" then false
  else if f.end_date < f.start_date then false
  else if !f.has_project_code then false
  else true

/-- The budget payload of the AI extraction (claude extract_contract_data). -/
structure BudgetData where
  total : Option Int := none
  currency : Option String := none
  vat_included : Option Bool := none
  vat_rate : Option Int := none
deriving Repr, DecidableEq

/-- One extracted payment stage. -/
structure StageData where
  stage_number : Nat
  amount : Int
  description : Option String := none
  trigger : Option String := none
deriving Repr, DecidableEq

/-- One extracted deliverable (a contract scope line-item). -/
structure ExtractedDeliverable where
  number : Option String := none
  title : String
  description : Option String := none
  suggested_methodologies : List String := []
deriving Repr, DecidableEq

/-- One extracted methodology mention. -/
structure MethodologyMention where
  code : String
  quantity : Option Int := none
  details : Option String := none
deriving Repr, DecidableEq

/-- The extracted-contract payload dict; every key is optional
(`extracted.get(...)` semantics). -/
structure ExtractedData where
  budget : Option BudgetData := none
  duration_weeks : Option Int := none
  payment_stages : Option (List StageData) := none
  deliverables : Option (List ExtractedDeliverable) := none
  methodologies : Option (List MethodologyMention) := none
  confidence_score : Option Int := none
deriving Repr, DecidableEq

/-- st.session_state.project_data as it reaches step 4 (after step 1 saved
the validated basics and step 2 stored the optional texts/filenames). -/
structure ProjectFormData where
  project_code : String
  name : String
  client : String
  contract_signed_date : Option Int := none
  start_date : Int
  end_date : Int
  payment_scenario : Option String := none
  group : String
  project_type : String
  sales_notes : Option String := none
  project_specifics : Option String := none
  contract_text : Option String := none
  contract_filename : Option String := none
  proposal_filename : Option String := none
deriving Repr, DecidableEq

/-- The Project(...) construction of show_step4_review_create: status draft,
prepayment_date = start_date, budget fields with their model defaults when
the extraction lacks them. -/
def mkNewProject (d : ProjectFormData) (e : ExtractedData) : ProjectRecord :=
  { project_code := d.project_code
    name := d.name
    client := d.client
    contract_signed_date := d.contract_signed_date
    prepayment_date := d.start_date
    start_date := d.start_date
    end_date := d.end_date
    payment_scenario := d.payment_scenario.getD "thirds"
    status := "draft"
    group := d.group
    project_type := d.project_type
    budget_total := e.budget.bind (·.total)
    budget_currency := (e.budget.bind (·.currency)).getD "RUB"
    vat_included := (e.budget.bind (·.vat_included)).getD true
    vat_rate := (e.budget.bind (·.vat_rate)).getD 5
    duration_weeks := e.duration_weeks
    sales_notes := d.sales_notes
    project_specifics := d.project_specifics
    created_by := "admin" }

/-- A ProjectDocument row (the fields the creation flow writes). -/
structure DocRow where
  project_id : Nat
  type : String
  file_name : String
  extracted_text : Option String := none
  ai_processing_status : String := "pending"
  ai_confidence_score : Option Int := none
deriving Repr, DecidableEq

/-- A PaymentStage row as the creation flow writes it. -/
structure PaymentStageRow where
  project_id : Nat
  stage_number : Nat
  amount : Int
  description : Option String := none
  trigger : Option String := none
  is_from_contract : Bool := false
deriving Repr, DecidableEq

/-- A Deliverable row as the creation flow writes it; `id` is the primary
key handed out by the flush. -/
structure DeliverableRow where
  id : Nat
  project_id : Nat
  number : Option String := none
  title : String
  description : Option String := none
  suggested_methodologies : List String := []
  selected_methodologies : List String := []
  is_from_contract : Bool := false
deriving Repr, DecidableEq

/-- A TaskDependency row (src/database/models.py TaskDependency). -/
structure TaskDependencyRow where
  project_id : Nat
  predecessor_id : Nat
  successor_id : Nat
  dependency_type : String := "FS"
  lag_days : Int := 0
deriving Repr, DecidableEq

/-- A MethodologySelection row; the methodology is identified here by its
code (the flow resolves the code to the catalog row before inserting). -/
structure SelectionRow where
  project_id : Nat
  methodology_code : String
  is_selected : Bool := false
  is_from_contract : Bool := false
  quantity : Option Int := none
  details : Option String := none
deriving Repr, DecidableEq

/-- One dependency declared in the step-3 planning table:
predecessor_idx 0 means no dependency, i means the i-th deliverable
(1-based). -/
structure PlanDep where
  predecessor_idx : Nat
  dependency_type : String := "FS"
deriving Repr, DecidableEq

/-- st.session_state.planning_data for one deliverable: the selected
methodology labels and the declared dependencies. -/
structure PlanEntry where
  methodologies : List String := []
  dependencies : List PlanDep := []
deriving Repr, DecidableEq

/-- Looks up the planning entry of the i-th deliverable
(the planning_data dict keyed by deliv_i). -/
def lookupPlan (planning : List (Nat × PlanEntry)) (i : Nat) : Option PlanEntry :=
  (planning.find? (fun p => p.1 = i)).map (·.2)

/-- The label-to-code methodology_options dict built from the catalog:
key is code plus colon plus name, value the code. -/
def methodologyOptions (catalog : List MethodologyDef) : List (String × String) :=
  catalog.map (fun m => (m.code ++ ": " ++ m.name, m.code))

/-- Dict lookup in an association list. -/
def lookupStr (opts : List (String × String)) (label : String) : Option String :=
  (opts.find? (fun p => p.1 = label)).map (·.2)

/-- The selected-methodology codes of the i-th deliverable: the planning
labels resolved through methodology_options, keeping only known labels. -/
def selectedFor (planning : List (Nat × PlanEntry)) (opts : List (String × String))
    (i : Nat) : List String :=
  match lookupPlan planning i with
  | none => []
  | some ent => ent.methodologies.filterMap (lookupStr opts)

/-- The deliverable-creation loop of show_step4_review_create: the i-th
extracted deliverable becomes a row with flush-assigned id baseId + i,
tagged is_from_contract, carrying its planning selections; the list pairs
each row with its loop index (created_deliverables). -/
def createDeliverables (pid baseId : Nat) (planning : List (Nat × PlanEntry))
    (opts : List (String × String)) :
    Nat → List ExtractedDeliverable → List (Nat × DeliverableRow)
  | _, [] => []
  | i, d :: ds =>
    (i, { id := baseId + i
          project_id := pid
          number := d.number
          title := d.title
          description := d.description
          suggested_methodologies := d.suggested_methodologies
          selected_methodologies := selectedFor planning opts i
          is_from_contract := true }) ::
      createDeliverables pid baseId planning opts (i + 1) ds

/-- The body of the dependency-creation loop for one declared dependency of
the successor deliverable: index 0 means no dependency; otherwise the
1-based predecessor index is resolved against created_deliverables and,
when in range, a TaskDependency row is produced — with no further check
(in particular none against predecessor = successor). -/
def depEdge (pid : Nat) (created : List (Nat × DeliverableRow))
    (successor : DeliverableRow) (dep : PlanDep) : Option TaskDependencyRow :=
  if dep.predecessor_idx > 0 then
    match created[dep.predecessor_idx - 1]? with
    | some pc =>
      some { project_id := pid
             predecessor_id := pc.2.id
             successor_id := successor.id
             dependency_type := dep.dependency_type
             lag_days := 0 }
    | none => none
  else none

/-- The dependency-creation loop of show_step4_review_create: for every
created deliverable, every dependency of its planning entry is resolved
with depEdge and the resulting rows are collected. -/
def buildTaskDependencies (pid : Nat) (created : List (Nat × DeliverableRow))
    (planning : List (Nat × PlanEntry)) : List TaskDependencyRow :=
  created.flatMap (fun p =>
    match lookupPlan planning p.1 with
    | none => []
    | some ent => ent.dependencies.filterMap (depEdge pid created p.2))

/-- The rows the creation handler adds to the session before the generation
phase (project, documents, payment stages, deliverables, dependencies,
methodology selections, checklist items). -/
structure CreatedRows where
  project : ProjectRecord
  documents : List DocRow
  payment_stages : List PaymentStageRow
  deliverables : List DeliverableRow
  task_dependencies : List TaskDependencyRow
  selections : List SelectionRow
  checklist : List ChecklistRow
deriving Repr, DecidableEq

/-- All session adds of show_step4_review_create up to the generation
phase, in source order; pid and baseId are the primary keys the flush
hands out. -/
def buildRows (pid baseId : Nat) (d : ProjectFormData) (e : ExtractedData)
    (planning : List (Nat × PlanEntry)) (catalog : List MethodologyDef) :
    CreatedRows :=
  let opts := methodologyOptions catalog
  let created :=
    match e.deliverables with
    | none => []
    | some ds => createDeliverables pid baseId planning opts 0 ds
  { project := mkNewProject d e
    documents :=
      (match d.contract_text with
       | some txt =>
         [{ project_id := pid, type := "contract"
            file_name := d.contract_filename.getD "contract.txt"
            extracted_text := some txt
            ai_processing_status := "completed"
            ai_confidence_score := some (e.confidence_score.getD 0) }]
       | none => []) ++
      (match d.proposal_filename with
       | some fn =>
         [{ project_id := pid, type := "proposal", file_name := fn }]
       | none => [])
    payment_stages :=
      (e.payment_stages.getD []).map (fun st =>
        { project_id := pid, stage_number := st.stage_number
          amount := st.amount, description := st.description
          trigger := st.trigger, is_from_contract := true })
    deliverables := created.map (·.2)
    task_dependencies := buildTaskDependencies pid created planning
    selections :=
      (e.methodologies.getD []).filterMap (fun m =>
        if (catalog.map (·.code)).contains m.code then
          some { project_id := pid, methodology_code := m.code
                 is_selected := true, is_from_contract := true
                 quantity := m.quantity, details := m.details }
        else none)
    checklist :=
      SETUP_CHECKLIST_ITEMS.map (fun t =>
        { project_id := pid, item_number := t.item_number
          title := t.title, description := t.description }) }

/-- Folder id and link of the Google Drive project folder, as reported back
into the creation result. -/
structure GDriveInfo where
  folder_id : String
  folder_url : String
deriving Repr, DecidableEq

/-- The result dict of create_project_with_gdrive_sync (the file paths it
also reports play no part in any claim and are omitted). -/
structure SyncResult where
  obsidian_path : Option String
  google_drive : Option GDriveInfo := none
  google_drive_error : Option String := none
deriving Repr, DecidableEq

/-- Outcomes of the external collaborators during one run of the creation
flow: whether each generation call raises, whether the local vault is
writable, whether the Drive client initializes, whether the Drive sync
raises (and with what message), and whether the final commit raises. -/
structure FlowEnv where
  adminscaleFails : Bool
  pertFails : Bool
  obsidianFails : Bool
  gdriveAvailable : Bool
  gdriveSyncFails : Bool
  gdriveErrMsg : String
  gdriveInfo : GDriveInfo
  vaultPath : String
  commitFails : Bool
deriving Repr, DecidableEq

/-- The externally observable steps of one run of the creation handler, in
order: the session adds, the AI document generation, the Drive mirroring,
the commit of the transaction, and a rollback. -/
inductive FlowEvent where
  | addRows
  | generateDocs
  | gdriveSync
  | commitTx
  | rollbackTx
deriving Repr, DecidableEq, BEq

/-- The Obsidian project folder path:
vault/20-projects/21-engagements/211-active/ plus the lowercased code. -/
def obsidianPathFor (vaultPath projectCode : String) : String :=
  vaultPath ++ "/20-projects/21-engagements/211-active/" ++ strLower projectCode

/-- create_project_with_gdrive_sync of src/api/project_generator.py, with
the trace of its external steps: generate the two documents first (a
failure of either raises out of the function), write them to the vault or —
when the vault is unavailable — to a temp dir, then, when a Drive client
was provided, mirror to Google Drive with any sync failure caught and
recorded in the google_drive_error field rather than raised. -/
def create_project_with_gdrive_sync (env : FlowEnv) (d : ProjectFormData)
    (gdriveClient : Bool) : Except String SyncResult × List FlowEvent :=
  if env.adminscaleFails then
    (.error "Error generating adminscale: api error", [.generateDocs])
  else if env.pertFails then
    (.error "Error generating PERT: api error", [.generateDocs])
  else
    let obsidian_path : Option String :=
      if env.obsidianFails then none
      else some (obsidianPathFor env.vaultPath d.project_code)
    let base : SyncResult := { obsidian_path := obsidian_path }
    if gdriveClient then
      if env.gdriveSyncFails then
        (.ok { base with google_drive_error := some env.gdriveErrMsg },
         [.generateDocs, .gdriveSync])
      else
        (.ok { base with google_drive := some env.gdriveInfo },
         [.generateDocs, .gdriveSync])
    else
      (.ok base, [.generateDocs])

/-- What one run of the creation handler leaves behind: the step trace, the
committed rows (none when the transaction rolled back), the generation
result, the warnings shown, and the top-level error message shown when the
outer try aborted. -/
structure FlowOutcome where
  trace : List FlowEvent
  committed : Option CreatedRows
  result : Option SyncResult
  warnings : List String
  errorShown : Option String
deriving Repr, DecidableEq

/-- The in-session updates performed after the generation phase: when it
returned a result, the project row receives the vault path and — when the
Drive sync succeeded — the Drive folder id and link; nothing else changes. -/
def updatedRows (rows : CreatedRows) (result : Option SyncResult) : CreatedRows :=
  match result with
  | none => rows
  | some r =>
    let p1 := { rows.project with obsidian_path := r.obsidian_path }
    let p2 :=
      match r.google_drive with
      | some g => { p1 with google_drive_folder_id := some g.folder_id
                            google_drive_folder_url := some g.folder_url }
      | none => p1
    { rows with project := p2 }

/-- The create-button handler of show_step4_review_create: add all rows to
the session, run the generation-and-mirroring phase (its failure is caught
and shown as a warning, never aborting the flow), copy the resulting paths
and Drive links onto the project row, then perform the single commit; a
commit failure lands in the outer handler, which shows the error and rolls
the session back. -/
def runCreateFlow (env : FlowEnv) (pid baseId : Nat) (d : ProjectFormData)
    (e : ExtractedData) (planning : List (Nat × PlanEntry))
    (catalog : List MethodologyDef) : FlowOutcome :=
  let rows := buildRows pid baseId d e planning catalog
  let gdriveWarnings : List String :=
    if env.gdriveAvailable then [] else ["Google Drive недоступен"]
  let genOut := create_project_with_gdrive_sync env d env.gdriveAvailable
  let resultAndWarn : Option SyncResult × List String :=
    match genOut.1 with
    | .error msg =>
      (none, ["Проект создан в БД, но не удалось сгенерировать документы: " ++ msg])
    | .ok r => (some r, [])
  let result := resultAndWarn.1
  if env.commitFails then
    { trace := [.addRows] ++ genOut.2 ++ [.commitTx, .rollbackTx]
      committed := none
      result := result
      warnings := gdriveWarnings ++ resultAndWarn.2
      errorShown := some "Ошибка при создании проекта" }
  else
    { trace := [.addRows] ++ genOut.2 ++ [.commitTx]
      committed := some (updatedRows rows result)
      result := result
      warnings := gdriveWarnings ++ resultAndWarn.2
      errorShown := none }

/-- One folder of the remote store: id, name, and parent folder id (none =
the drive root; the shared-drive-root substitution of the client applies
identically in find and create, so folders are stored with the resolved
parent). -/
structure DriveFolder where
  id : Nat
  name : String
  parent : Option Nat
deriving Repr, DecidableEq

/-- The remote folder store: the folders in creation order plus the next
fresh id the service will assign. -/
structure DriveState where
  folders : List DriveFolder
  nextId : Nat
deriving Repr, DecidableEq

/-- The id-and-link pair returned by the folder operations. -/
structure FolderRef where
  id : Nat
  url : String
deriving Repr, DecidableEq

/-- The webViewLink of a folder, derived from its id. -/
def folderUrl (fid : Nat) : String :=
  "https://drive.google.com/drive/folders/" ++ toString fid

/-- find_folder_by_name of src/api/google_drive_client.py: the first folder
whose name and parent match, if any (the files().list query returns the
matches and the code takes items[0]). -/
def find_folder_by_name (s : DriveState) (folder_name : String)
    (parent_id : Option Nat) : Option Nat :=
  ((s.folders.filter (fun f =>
      decide (f.name = folder_name ∧ f.parent = parent_id))).head?).map (·.id)

/-- create_folder: unconditionally creates a new folder with a fresh id
under the given parent and returns its id and link. -/
def create_folder (s : DriveState) (folder_name : String)
    (parent_id : Option Nat) : FolderRef × DriveState :=
  ({ id := s.nextId, url := folderUrl s.nextId },
   { folders := s.folders ++ [{ id := s.nextId, name := folder_name,
                                parent := parent_id }],
     nextId := s.nextId + 1 })

/-- get_or_create_folder: find the folder by name under the parent and
return it (fetching its link), otherwise create it. -/
def get_or_create_folder (s : DriveState) (folder_name : String)
    (parent_id : Option Nat) : FolderRef × DriveState :=
  match find_folder_by_name s folder_name parent_id with
  | some fid => ({ id := fid, url := folderUrl fid }, s)
  | none => create_folder s folder_name parent_id

/-- The 3-letter ticker extracted from the project code (the piece after the
first dot, or XXX when the code has no dot). -/
def tickerOf (code : String) : String :=
  match splitOnChar '.' code with
  | _ :: t :: _ => t
  | _ => "XXX"

/-- The folder bundle returned by create_project_folder_structure. -/
structure ProjectFolderStructure where
  root : FolderRef
  group_folder : FolderRef
  project_folder : FolderRef
  subfolders : List (String × FolderRef)
deriving Repr, DecidableEq

/-- create_project_folder_structure of src/api/google_drive_client.py:
get-or-create the 04-Engagement root and the group folder, then create —
unconditionally — the project folder named from the upper-cased code and
the client name, and the five fixed ticker subfolders inside it. -/
def create_project_folder_structure (s : DriveState)
    (project_code project_name grp : String) :
    ProjectFolderStructure × DriveState :=
  let ticker := tickerOf project_code
  let rootOut := get_or_create_folder s "04-Engagement" none
  let group_name := if grp = "right" then "Правая группа" else "Левая группа"
  let groupOut := get_or_create_folder rootOut.2 group_name (some rootOut.1.id)
  let project_folder_name := strUpper project_code ++ " " ++ project_name
  let projOut := create_folder groupOut.2 project_folder_name (some groupOut.1.id)
  let subNames := [ticker ++ ".01-inbox", ticker ++ ".02-research",
                   ticker ++ ".03-meetings", ticker ++ ".04-project-docs",
                   ticker ++ ".05-deliverables"]
  let subsOut := subNames.foldl
    (fun (acc : List (String × FolderRef) × DriveState) nm =>
      let out := create_folder acc.2 nm (some projOut.1.id)
      (acc.1 ++ [(nm, out.1)], out.2))
    ([], projOut.2)
  ({ root := rootOut.1, group_folder := groupOut.1,
     project_folder := projOut.1, subfolders := subsOut.1 },
   subsOut.2)

/-- The count of rows a batch imports, computed directly by recursion: a
row counts exactly when its name is non-empty, not already seen (in the
store or earlier in the batch), all its field parses succeed AND the ORM
construction accepts the project_data keywords; only then is its name added
to the seen set (matching the flush visibility of the session).  With the
registry keys in project_data the construction step always fails, so no row
of any batch counts as non-failing in this source snapshot. -/
def countImported (today : Int) : List String → List ExRow → Nat
  | _, [] => 0
  | seen, r :: rs =>
    match nameOf r with
    | none => countImported today seen rs
    | some n =>
      if n ∈ seen then countImported today seen rs
      else
        match parsedFields today r with
        | .error _ => countImported today seen rs
        | .ok _ =>
          match ormProjectConstructorError project_data_keys with
          | some _ => countImported today seen rs
          | none => 1 + countImported today (seen ++ [n]) rs

/-- An empty relational store. -/
def emptyImportDB : ImportDB :=
  { projects := [], pending := [], checklist := [] }

/-- A registry row holding only a client name (every other cell NaN). -/
def acmeRow : ExRow :=
  { nameCell := .str "Acme" }

/-- A registry row with an empty client-name cell. -/
def emptyNameRow : ExRow :=
  { nameCell := .str "   " }

/-- A creation-flow environment in which every collaborator succeeds. -/
def envAllOk : FlowEnv :=
  { adminscaleFails := false, pertFails := false, obsidianFails := false,
    gdriveAvailable := true, gdriveSyncFails := false,
    gdriveErrMsg := "", gdriveInfo := { folder_id := "fid1", folder_url := "furl1" },
    vaultPath := "/vault", commitFails := false }

/-- A creation-flow environment in which only the Drive mirroring raises. -/
def envGdriveFails : FlowEnv :=
  { envAllOk with gdriveSyncFails := true, gdriveErrMsg := "quota exceeded" }

/-- The step-4 form data of a small concrete project. -/
def sampleForm : ProjectFormData :=
  { project_code := "2170.ACM.acme", name := "Проект ACME", client := "ACME",
    start_date := 20250101, end_date := 20250401, group := "right",
    project_type := "new" }

/-- A single extracted deliverable. -/
def oneDeliverable : List ExtractedDeliverable :=
  [{ title := "Пункт 1" }]

/-- Planning data in which the first deliverable declares a dependency on
deliverable number 1 — that is, on itself. -/
def selfDepPlanning : List (Nat × PlanEntry) :=
  [(0, { methodologies := [],
         dependencies := [{ predecessor_idx := 1, dependency_type := "FS" }] })]

/-- The generation result of the all-success environment on the sample
form. -/
def sampleSyncResult : SyncResult :=
  { obsidian_path := some (obsidianPathFor "/vault" "2170.ACM.acme")
    google_drive := some { folder_id := "fid1", folder_url := "furl1" }
    google_drive_error := none }

/-- The rows the all-success sample run commits. -/
def sampleCommitted : CreatedRows :=
  updatedRows (buildRows 1 100 sampleForm {} [] []) (some sampleSyncResult)

/-- Claim C6: seeding the methodology catalog on an empty store inserts
exactly 36 rows — 11 of category БПМ and 25 of category БПА — with pairwise
distinct codes, and running the seeding again on a non-empty catalog inserts
nothing, leaving the catalog unchanged. -/
theorem C6_methodology_catalog_seeding :
    (import_methodologies []).length = 36 ∧
    ((import_methodologies []).filter (fun m => m.category = "БПМ")).length = 11 ∧
    ((import_methodologies []).filter (fun m => m.category = "БПА")).length = 25 ∧
    ((import_methodologies []).map (fun m => m.code)).Nodup ∧
    (∀ db : List MethodologyDef, db ≠ [] → import_methodologies db = db) := by
  refine ⟨by decide, by decide, by decide, by decide, ?_⟩
  intro db h
  unfold import_methodologies
  rw [if_pos (List.length_pos.mpr h)]

/-- Witness for C6: re-seeding a catalog that already holds one row leaves
it unchanged. -/
theorem C6_methodology_catalog_seeding_witness :
    import_methodologies
        [{ code := "БПМ1", name := "Опросы", category := "БПМ",
           description := "x", typical_effort_hours := 16,
           requires_details := true }] =
      [{ code := "БПМ1", name := "Опросы", category := "БПМ",
         description := "x", typical_effort_hours := 16,
         requires_details := true }] :=
  C6_methodology_catalog_seeding.2.2.2.2 _ (by decide)

/-- Claim C1 counterexample: for a one-deliverable project whose planning
declares deliverable 1 as its own predecessor, the step-4 dependency loop
stores a TaskDependency row with predecessor = successor — the claimed
ValidationError rejection does not exist, and the row IS created. -/
theorem C1_self_dependency_stored :
    buildTaskDependencies 1
        (createDeliverables 1 100 selfDepPlanning [] 0 oneDeliverable)
        selfDepPlanning =
      [{ project_id := 1, predecessor_id := 100, successor_id := 100,
         dependency_type := "FS", lag_days := 0 }] ∧
    ∃ t ∈ buildTaskDependencies 1
        (createDeliverables 1 100 selfDepPlanning [] 0 oneDeliverable)
        selfDepPlanning, t.predecessor_id = t.successor_id := by
  decide

/-- Claim C1 (amended): the dependency-creation step performs no validation
at all — every planning dependency whose 1-based predecessor index resolves
to a created deliverable is stored as an edge (self-dependencies included),
and every stored edge carries the new project's id and links two
deliverables of that project, because predecessors are drawn from the
project's own created deliverables. -/
theorem C1_dependency_edges_unvalidated (pid : Nat)
    (created : List (Nat × DeliverableRow)) (planning : List (Nat × PlanEntry)) :
    (∀ t ∈ buildTaskDependencies pid created planning,
        t.project_id = pid ∧
        t.predecessor_id ∈ created.map (fun p => p.2.id) ∧
        t.successor_id ∈ created.map (fun p => p.2.id)) ∧
    (∀ (i : Nat) (drow : DeliverableRow) (ent : PlanEntry) (dep : PlanDep)
        (pc : Nat × DeliverableRow),
        (i, drow) ∈ created →
        lookupPlan planning i = some ent →
        dep ∈ ent.dependencies →
        0 < dep.predecessor_idx →
        created[dep.predecessor_idx - 1]? = some pc →
        ({ project_id := pid, predecessor_id := pc.2.id,
           successor_id := drow.id, dependency_type := dep.dependency_type,
           lag_days := 0 } : TaskDependencyRow) ∈
          buildTaskDependencies pid created planning) := by
  constructor
  · intro t ht
    rw [buildTaskDependencies, List.mem_flatMap] at ht
    obtain ⟨p, hp, hmem⟩ := ht
    cases hplan : lookupPlan planning p.1 with
    | none => rw [hplan] at hmem; simp at hmem
    | some ent =>
      rw [hplan] at hmem
      rw [List.mem_filterMap] at hmem
      obtain ⟨dep, _, hedge⟩ := hmem
      unfold depEdge at hedge
      by_cases hgt : dep.predecessor_idx > 0
      · rw [if_pos hgt] at hedge
        cases hget : created[dep.predecessor_idx - 1]? with
        | none => rw [hget] at hedge; cases hedge
        | some pc =>
          rw [hget] at hedge
          cases hedge
          refine ⟨rfl, ?_, ?_⟩
          · exact List.mem_map_of_mem _ (List.getElem?_mem hget)
          · exact List.mem_map_of_mem _ hp
      · rw [if_neg hgt] at hedge; cases hedge
  · intro i drow ent dep pc hmem hplan hdep hge hget
    rw [buildTaskDependencies, List.mem_flatMap]
    refine ⟨(i, drow), hmem, ?_⟩
    show _ ∈ match lookupPlan planning i with
      | none => []
      | some ent => ent.dependencies.filterMap (depEdge pid created drow)
    rw [hplan, List.mem_filterMap]
    refine ⟨dep, hdep, ?_⟩
    unfold depEdge
    rw [if_pos hge, hget]

/-- Witness for C1: the amended theorem applied to the concrete
self-dependency planning stores the self-edge. -/
theorem C1_dependency_edges_unvalidated_witness :
    ({ project_id := 1, predecessor_id := 100, successor_id := 100,
       dependency_type := "FS", lag_days := 0 } : TaskDependencyRow) ∈
      buildTaskDependencies 1
        (createDeliverables 1 100 selfDepPlanning [] 0 oneDeliverable)
        selfDepPlanning :=
  (C1_dependency_edges_unvalidated 1
      (createDeliverables 1 100 selfDepPlanning [] 0 oneDeliverable)
      selfDepPlanning).2
    0
    { id := 100, project_id := 1, number := none, title := "Пункт 1",
      description := none, suggested_methodologies := [],
      selected_methodologies := [], is_from_contract := true }
    { methodologies := [],
      dependencies := [{ predecessor_idx := 1, dependency_type := "FS" }] }
    { predecessor_idx := 1, dependency_type := "FS" }
    (0, { id := 100, project_id := 1, number := none, title := "Пункт 1",
          description := none, suggested_methodologies := [],
          selected_methodologies := [], is_from_contract := true })
    (by decide) (by decide) (by decide) (by decide) (by decide)

/-- After a failed lookup, the folder just created is found — it is the only
folder with that name under that parent, hence the head of the matches. -/
theorem find_after_create (s : DriveState) (folder_name : String)
    (parent_id : Option Nat)
    (h : find_folder_by_name s folder_name parent_id = none) :
    find_folder_by_name (create_folder s folder_name parent_id).2 folder_name
      parent_id = some s.nextId := by
  unfold find_folder_by_name at h ⊢
  unfold create_folder
  rw [Option.map_eq_none'] at h
  rw [List.head?_eq_none_iff] at h
  simp only [List.filter_append, h, List.nil_append]
  simp [List.filter]

/-- Claim C9 (amended): folder get-or-create is idempotent — a repeated call
returns the same folder id and leaves the store unchanged — but
create_project_folder_structure is not: it creates the project folder
unconditionally, so repeating it for the same project code, client and
group adds a second project folder with the same name (only the engagement
root and the group folder are deduplicated). -/
theorem C9_get_or_create_idempotent_structure_not :
    (∀ (s : DriveState) (folder_name : String) (parent_id : Option Nat),
        get_or_create_folder (get_or_create_folder s folder_name parent_id).2
            folder_name parent_id =
          get_or_create_folder s folder_name parent_id) ∧
    ((((create_project_folder_structure
          (create_project_folder_structure ⟨[], 0⟩
              "2169.CLI.client" "Acme" "right").2
          "2169.CLI.client" "Acme" "right").2).folders.filter
        (fun f => f.name = "2169.CLI.CLIENT Acme")).length = 2) := by
  constructor
  · intro s folder_name parent_id
    unfold get_or_create_folder
    cases h : find_folder_by_name s folder_name parent_id with
    | some fid => simp [h]
    | none =>
      have h2 := find_after_create s folder_name parent_id h
      simp only [create_folder] at h2 ⊢
      rw [h2]
  · decide

/-- Claim C9 counterexample: repeating the remote folder-structure creation
with the same project code, client and group leaves two folders named after
the project — the repetition does create a duplicate. -/
theorem C9_repeated_structure_creates_duplicate :
    ¬ ((((create_project_folder_structure
            (create_project_folder_structure ⟨[], 0⟩
                "2169.CLI.client" "Acme" "right").2
            "2169.CLI.client" "Acme" "right").2).folders.filter
          (fun f => f.name = "2169.CLI.CLIENT Acme")).length ≤ 1) := by
  decide

/-- Claim C3 counterexample: in a concrete all-success run of the creation
flow the trace is add-rows, then document generation, then Drive mirroring,
then the commit — generation and mirroring are executed strictly BEFORE the
transaction commits, not after it as the claim states. -/
theorem C3_generation_precedes_commit_cex :
    (runCreateFlow envAllOk 1 100 sampleForm {} [] []).trace =
      [FlowEvent.addRows, FlowEvent.generateDocs, FlowEvent.gdriveSync,
       FlowEvent.commitTx] ∧
    (runCreateFlow envAllOk 1 100 sampleForm {} [] []).trace.indexOf
        FlowEvent.generateDocs <
      (runCreateFlow envAllOk 1 100 sampleForm {} [] []).trace.indexOf
        FlowEvent.commitTx := by
  decide

/-- Claim C3 (amended): in every run of the creation flow, document
generation and remote mirroring are executed before the single commit of
the transaction; their failures are caught and downgraded to warnings, so a
rollback happens exactly when the commit itself raises, and the core rows
become durable exactly when the commit succeeds (they are not yet persisted
while generation and mirroring run). -/
theorem C3_generation_and_mirroring_before_commit (env : FlowEnv)
    (pid baseId : Nat) (d : ProjectFormData) (e : ExtractedData)
    (planning : List (Nat × PlanEntry)) (catalog : List MethodologyDef) :
    ((runCreateFlow env pid baseId d e planning catalog).trace.indexOf
        FlowEvent.generateDocs <
      (runCreateFlow env pid baseId d e planning catalog).trace.indexOf
        FlowEvent.commitTx) ∧
    (FlowEvent.rollbackTx ∈ (runCreateFlow env pid baseId d e planning catalog).trace ↔
      env.commitFails = true) ∧
    (runCreateFlow env pid baseId d e planning catalog).committed.isSome =
      !env.commitFails := by
  obtain ⟨a, p, o, g, gs, m, gi, v, c⟩ := env
  cases a <;> cases p <;> cases g <;> cases gs <;> cases c <;>
    simp [runCreateFlow, create_project_with_gdrive_sync] <;> decide

/-- The post-generation project-row updates never touch the checklist
rows. -/
theorem updatedRows_checklist (rows : CreatedRows) (result : Option SyncResult) :
    (updatedRows rows result).checklist = rows.checklist := by
  unfold updatedRows
  rcases result with _ | r
  · rfl
  · cases hgd : r.google_drive <;> simp [hgd]

/-- The post-generation project-row updates never touch the project code. -/
theorem updatedRows_project_code (rows : CreatedRows) (result : Option SyncResult) :
    (updatedRows rows result).project.project_code = rows.project.project_code := by
  unfold updatedRows
  rcases result with _ | r
  · rfl
  · cases hgd : r.google_drive <;> simp [hgd]

/-- Claim C4: whenever the Drive client is available but the mirroring step
raises (and generation and the commit themselves succeed), the creation
still completes: the project row is committed with its project code, the
mirroring error is recorded in the result's google_drive_error field with
no Drive folder recorded, no top-level error is raised, and no rollback
occurs. -/
theorem C4_gdrive_failure_nonfatal (env : FlowEnv) (pid baseId : Nat)
    (d : ProjectFormData) (e : ExtractedData) (planning : List (Nat × PlanEntry))
    (catalog : List MethodologyDef)
    (hg : env.gdriveAvailable = true) (hs : env.gdriveSyncFails = true)
    (ha : env.adminscaleFails = false) (hp : env.pertFails = false)
    (hc : env.commitFails = false) :
    (runCreateFlow env pid baseId d e planning catalog).committed.map
        (fun rows => rows.project.project_code) = some d.project_code ∧
    (runCreateFlow env pid baseId d e planning catalog).result =
      some { obsidian_path :=
               if env.obsidianFails then none
               else some (obsidianPathFor env.vaultPath d.project_code)
             google_drive := none
             google_drive_error := some env.gdriveErrMsg } ∧
    (runCreateFlow env pid baseId d e planning catalog).errorShown = none ∧
    FlowEvent.rollbackTx ∉ (runCreateFlow env pid baseId d e planning catalog).trace := by
  obtain ⟨a, p, o, g, gs, m, gi, v, c⟩ := env
  simp only at hg hs ha hp hc
  subst hg hs ha hp hc
  cases o <;>
    simp [runCreateFlow, create_project_with_gdrive_sync, updatedRows, buildRows,
          mkNewProject]

/-- Witness for C4: the sample run whose only failure is the Drive
mirroring commits the project and records the mirroring error. -/
theorem C4_gdrive_failure_nonfatal_witness :
    (runCreateFlow envGdriveFails 1 100 sampleForm {} [] []).committed.map
        (fun rows => rows.project.project_code) = some sampleForm.project_code ∧
    (runCreateFlow envGdriveFails 1 100 sampleForm {} [] []).result =
      some { obsidian_path :=
               if envGdriveFails.obsidianFails then none
               else some (obsidianPathFor envGdriveFails.vaultPath
                            sampleForm.project_code)
             google_drive := none
             google_drive_error := some envGdriveFails.gdriveErrMsg } ∧
    (runCreateFlow envGdriveFails 1 100 sampleForm {} [] []).errorShown = none ∧
    FlowEvent.rollbackTx ∉
      (runCreateFlow envGdriveFails 1 100 sampleForm {} [] []).trace :=
  C4_gdrive_failure_nonfatal envGdriveFails 1 100 sampleForm {} [] []
    rfl rfl rfl rfl rfl

/-- The constructor check always fails on the import's project_data keys:
contract_appendix_url is the first keyword that is not a mapped attribute
of the Project class. -/
theorem orm_always_fails :
    ormProjectConstructorError project_data_keys =
      some "'contract_appendix_url' is an invalid keyword argument for Project" := by
  decide

/-- A row with an empty or missing name only increments the skipped
counter. -/
theorem stepRow_empty_eq {today : Int} {g : String} {idx : Nat} {r : ExRow}
    {s : ImportState} (h : nameOf r = none) :
    stepRow today g idx r s =
      { s with stats := { s.stats with skipped := s.stats.skipped + 1 } } := by
  unfold stepRow; rw [h]

/-- A row whose name is already visible in the session increments the
skipped counter and appends the duplicate message. -/
theorem stepRow_dup_eq {today : Int} {g : String} {idx : Nat} {r : ExRow}
    {s : ImportState} {n : String} (h : nameOf r = some n)
    (hmem : n ∈ sessionNames s) :
    stepRow today g idx r s =
      { s with stats := { s.stats with
          skipped := s.stats.skipped + 1
          errors := s.stats.errors ++ [dupMsg n] } } := by
  unfold stepRow; rw [h]; dsimp only; rw [if_pos hmem]

/-- A row with a fresh name whose field parses fail only appends the
per-row error message. -/
theorem stepRow_fail_eq {today : Int} {g : String} {idx : Nat} {r : ExRow}
    {s : ImportState} {n : String} {e : String} (h : nameOf r = some n)
    (hmem : n ∉ sessionNames s) (hp : parsedFields today r = .error e) :
    stepRow today g idx r s =
      { s with stats := { s.stats with
          errors := s.stats.errors ++ [rowErrMsg idx r e] } } := by
  unfold stepRow; rw [h]; dsimp only; rw [if_neg hmem, hp]

/-- A row with a fresh name whose field parses succeed reaches the ORM
constructor, which rejects the registry keywords: only the TypeError
message is appended (nothing is added to the session and nothing is
counted). -/
theorem stepRow_orm_fail_eq {today : Int} {g : String} {idx : Nat} {r : ExRow}
    {s : ImportState} {n : String} {pf : ParsedFields} (h : nameOf r = some n)
    (hmem : n ∉ sessionNames s) (hp : parsedFields today r = .ok pf) :
    stepRow today g idx r s =
      { s with stats := { s.stats with
          errors := s.stats.errors ++
            [rowErrMsg idx r
              "'contract_appendix_url' is an invalid keyword argument for Project"] } } := by
  unfold stepRow
  rw [h]; dsimp only; rw [if_neg hmem, hp]; dsimp only; rw [orm_always_fails]

/-- No branch of the per-row step touches the database session. -/
theorem stepRow_db {today : Int} {g : String} {idx : Nat} {r : ExRow}
    {s : ImportState} : (stepRow today g idx r s).db = s.db := by
  cases h : nameOf r with
  | none => rw [stepRow_empty_eq h]
  | some n =>
    by_cases hmem : n ∈ sessionNames s
    · rw [stepRow_dup_eq h hmem]
    · cases hp : parsedFields today r with
      | error e => rw [stepRow_fail_eq h hmem hp]
      | ok pf => rw [stepRow_orm_fail_eq h hmem hp]

/-- No branch of the per-row step changes the imported counter. -/
theorem stepRow_imported {today : Int} {g : String} {idx : Nat} {r : ExRow}
    {s : ImportState} : (stepRow today g idx r s).stats.imported = s.stats.imported := by
  cases h : nameOf r with
  | none => rw [stepRow_empty_eq h]
  | some n =>
    by_cases hmem : n ∈ sessionNames s
    · rw [stepRow_dup_eq h hmem]
    · cases hp : parsedFields today r with
      | error e => rw [stepRow_fail_eq h hmem hp]
      | ok pf => rw [stepRow_orm_fail_eq h hmem hp]

/-- The session-visible names do not change across one row. -/
theorem stepRow_sessionNames {today : Int} {g : String} {idx : Nat} {r : ExRow}
    {s : ImportState} : sessionNames (stepRow today g idx r s) = sessionNames s := by
  unfold sessionNames
  rw [stepRow_db]

/-- Unfolding one iteration of the row loop. -/
theorem processRows_cons (today : Int) (g : String) (idx : Nat) (r : ExRow)
    (rs : List ExRow) (s : ImportState) :
    processRows today g idx (r :: rs) s =
      processRows today g (idx + 1) rs (stepRow today g idx r s) := rfl

/-- The row loop never touches the database session. -/
theorem processRows_db (today : Int) (g : String) (rows : List ExRow) :
    ∀ (idx : Nat) (s : ImportState),
    (processRows today g idx rows s).db = s.db := by
  induction rows with
  | nil => intro idx s; rfl
  | cons r rs ih =>
    intro idx s
    rw [processRows_cons, ih, stepRow_db]

/-- The row loop never changes the imported counter. -/
theorem processRows_imported (today : Int) (g : String) (rows : List ExRow) :
    ∀ (idx : Nat) (s : ImportState),
    (processRows today g idx rows s).stats.imported = s.stats.imported := by
  induction rows with
  | nil => intro idx s; rfl
  | cons r rs ih =>
    intro idx s
    rw [processRows_cons, ih, stepRow_imported]

/-- The import count of an empty batch. -/
theorem countImported_nil (today : Int) (seen : List String) :
    countImported today seen [] = 0 := rfl

/-- Unfolding the import count over one row. -/
theorem countImported_cons (today : Int) (seen : List String) (r : ExRow)
    (rs : List ExRow) :
    countImported today seen (r :: rs) =
      match nameOf r with
      | none => countImported today seen rs
      | some n =>
        if n ∈ seen then countImported today seen rs
        else
          match parsedFields today r with
          | .error _ => countImported today seen rs
          | .ok _ =>
            match ormProjectConstructorError project_data_keys with
            | some _ => countImported today seen rs
            | none => 1 + countImported today (seen ++ [n]) rs := rfl

/-- An empty-name row does not count. -/
theorem countImported_cons_empty {today : Int} {seen : List String} {r : ExRow}
    {rs : List ExRow} (h : nameOf r = none) :
    countImported today seen (r :: rs) = countImported today seen rs := by
  rw [countImported_cons, h]

/-- A row whose name was already seen does not count. -/
theorem countImported_cons_dup {today : Int} {seen : List String} {r : ExRow}
    {rs : List ExRow} {n : String} (h : nameOf r = some n) (hmem : n ∈ seen) :
    countImported today seen (r :: rs) = countImported today seen rs := by
  rw [countImported_cons, h]; dsimp only; rw [if_pos hmem]

/-- A row that fails a field parse does not count. -/
theorem countImported_cons_fail {today : Int} {seen : List String} {r : ExRow}
    {rs : List ExRow} {n e : String} (h : nameOf r = some n) (hmem : n ∉ seen)
    (hp : parsedFields today r = .error e) :
    countImported today seen (r :: rs) = countImported today seen rs := by
  rw [countImported_cons, h]; dsimp only; rw [if_neg hmem, hp]

/-- A row that reaches the ORM constructor does not count either: the
constructor rejects the registry keywords. -/
theorem countImported_cons_orm_fail {today : Int} {seen : List String}
    {r : ExRow} {rs : List ExRow} {n : String} {pf : ParsedFields}
    (h : nameOf r = some n) (hmem : n ∉ seen)
    (hp : parsedFields today r = .ok pf) :
    countImported today seen (r :: rs) = countImported today seen rs := by
  rw [countImported_cons, h]; dsimp only; rw [if_neg hmem, hp]; dsimp only
  rw [orm_always_fails]

/-- No row of any batch survives the construction step, so the import
count is zero for every seen set. -/
theorem countImported_eq_zero (today : Int) (rows : List ExRow) :
    ∀ seen : List String, countImported today seen rows = 0 := by
  induction rows with
  | nil => intro seen; rfl
  | cons r rs ih =>
    intro seen
    cases h : nameOf r with
    | none => rw [countImported_cons_empty h]; exact ih seen
    | some n =>
      by_cases hmem : n ∈ seen
      · rw [countImported_cons_dup h hmem]; exact ih seen
      · cases hp : parsedFields today r with
        | error e => rw [countImported_cons_fail h hmem hp]; exact ih seen
        | ok pf => rw [countImported_cons_orm_fail h hmem hp]; exact ih seen

/-- The imported counter of the loop equals the recursive import count of
the batch over the initially visible names. -/
theorem processRows_imported_count (today : Int) (g : String) (rows : List ExRow) :
    ∀ (idx : Nat) (s : ImportState),
    (processRows today g idx rows s).stats.imported =
      s.stats.imported + countImported today (sessionNames s) rows := by
  induction rows with
  | nil => intro idx s; rw [countImported_nil]; rfl
  | cons r rs ih =>
    intro idx s
    rw [processRows_cons, ih, stepRow_sessionNames, stepRow_imported]
    cases h : nameOf r with
    | none => rw [countImported_cons_empty h]
    | some n =>
      by_cases hmem : n ∈ sessionNames s
      · rw [countImported_cons_dup h hmem]
      · cases hp : parsedFields today r with
        | error e => rw [countImported_cons_fail h hmem hp]
        | ok pf => rw [countImported_cons_orm_fail h hmem hp]

/-- The imported counter stays 0, so the `imported > 0` guard in front of
the commit block is never satisfied: the import returns exactly the loop's
statistics and session state, for every commit outcome. -/
theorem import_runs_loop_only (today : Int) (g : String) (rows : List ExRow)
    (db0 : ImportDB) (co : Option String) :
    import_projects_from_excel today g rows db0 co =
      ((processRows today g 0 rows (initImportState rows db0)).stats,
       (processRows today g 0 rows (initImportState rows db0)).db) := by
  have h0 : (processRows today g 0 rows (initImportState rows db0)).stats.imported = 0 :=
    processRows_imported today g rows 0 (initImportState rows db0)
  have hneg : ¬ (processRows today g 0 rows (initImportState rows db0)).stats.imported > 0 := by
    omega
  unfold import_projects_from_excel
  rw [if_neg hneg]

/-- Claim C2: every committing run of the interactive project-creation
workflow instantiates exactly the 10 template checklist items, with
item_number 1 through 10 each exactly once and the fixed template titles;
and no other creation path produces Projects at all — the Excel import
leaves the projects table and the checklist table unchanged (every row
fails at the ORM constructor) — so the property holds for every new
Project regardless of creation path. -/
theorem C2_checklist_from_template :
    (∀ (env : FlowEnv) (pid baseId : Nat) (d : ProjectFormData)
        (e : ExtractedData) (planning : List (Nat × PlanEntry))
        (catalog : List MethodologyDef) (rows : CreatedRows),
        (runCreateFlow env pid baseId d e planning catalog).committed = some rows →
        rows.checklist.length = 10 ∧
        rows.checklist.map (fun it => it.item_number) = [1,2,3,4,5,6,7,8,9,10] ∧
        rows.checklist.map (fun it => it.title) =
          SETUP_CHECKLIST_ITEMS.map (fun t => t.title)) ∧
    (∀ (today : Int) (g : String) (rows : List ExRow) (db0 : ImportDB)
        (co : Option String),
        (import_projects_from_excel today g rows db0 co).2.projects =
          db0.projects ∧
        (import_projects_from_excel today g rows db0 co).2.checklist =
          db0.checklist) := by
  constructor
  · intro env pid baseId d e planning catalog rows h
    unfold runCreateFlow at h
    cases hc : env.commitFails
    · rw [hc] at h
      simp only [Bool.false_eq_true, if_false, Option.some.injEq] at h
      have hck : rows.checklist = (buildRows pid baseId d e planning catalog).checklist := by
        rw [← h, updatedRows_checklist]
      rw [hck]
      exact ⟨rfl, rfl, rfl⟩
    · rw [hc] at h
      simp at h
  · intro today g rows db0 co
    rw [import_runs_loop_only, processRows_db]
    exact ⟨rfl, rfl⟩

/-- Witness for C2: the all-success sample run commits the 10 template
items. -/
theorem C2_checklist_from_template_witness :
    sampleCommitted.checklist.length = 10 ∧
    sampleCommitted.checklist.map (fun it => it.item_number) = [1,2,3,4,5,6,7,8,9,10] ∧
    sampleCommitted.checklist.map (fun it => it.title) =
      SETUP_CHECKLIST_ITEMS.map (fun t => t.title) :=
  C2_checklist_from_template.1 envAllOk 1 100 sampleForm {} [] [] sampleCommitted
    (by decide)

/-- Claim C5: every persisted Project satisfies prepayment_date =
start_date and end_date ≥ start_date: the interactive path rejects an end
date earlier than the start date at step 1, before anything is persisted,
and builds its project row with prepayment_date = start_date and the
validated dates; the Excel-import path inserts no Project row at all in
this snapshot (every row fails at the ORM constructor), so it vacuously
only ever inserts satisfying rows. -/
theorem C5_date_invariants :
    (∀ f : Step1Form, f.end_date < f.start_date → step1Passes f = false) ∧
    (∀ f : Step1Form, step1Passes f = true → f.start_date ≤ f.end_date) ∧
    (∀ (d : ProjectFormData) (e : ExtractedData),
        (mkNewProject d e).prepayment_date = (mkNewProject d e).start_date ∧
        (mkNewProject d e).start_date = d.start_date ∧
        (mkNewProject d e).end_date = d.end_date) ∧
    (∀ (today : Int) (g : String) (rows : List ExRow) (db0 : ImportDB)
        (co : Option String),
        (import_projects_from_excel today g rows db0 co).2.projects =
          db0.projects) := by
  refine ⟨?_, ?_, ?_, ?_⟩
  · intro f h
    unfold step1Passes
    by_cases h1 : f.project_name = "" || f.client_name = ""
    · rw [if_pos h1]
    · rw [if_neg h1, if_pos h]
  · intro f h
    unfold step1Passes at h
    by_cases h1 : f.project_name = "" || f.client_name = ""
    · rw [if_pos h1] at h; cases h
    · rw [if_neg h1] at h
      by_cases h2 : f.end_date < f.start_date
      · rw [if_pos h2] at h; cases h
      · exact Int.not_lt.mp h2
  · intro d e; exact ⟨rfl, rfl, rfl⟩
  · intro today g rows db0 co
    rw [import_runs_loop_only, processRows_db]
    rfl

/-- Witness for C5: a concrete reversed-dates form fails step-1 validation,
and a concrete valid form has start before end. -/
theorem C5_date_invariants_witness :
    step1Passes { project_name := "P", client_name := "C", start_date := 20250401,
                  end_date := 20250101, group := "left", project_type := "new",
                  has_project_code := true } = false ∧
    (20250101 : Int) ≤ 20250401 :=
  ⟨C5_date_invariants.1 _ (by decide),
   C5_date_invariants.2.1
     { project_name := "P", client_name := "C", start_date := 20250101,
       end_date := 20250401, group := "left", project_type := "new",
       has_project_code := true } (by decide)⟩

/-- Claim C7 (code bug): evaluating the import at the failing input — two
registry rows both named Acme against an empty store with a live session —
shows that NEITHER row is imported and no duplicate skip occurs: each row
raises TypeError at Project(**project_data), because the registry keywords
are not mapped attributes of the Project class, so both rows land in the
error list, the skipped counter stays 0, no already-exists message
appears, and no Project row exists afterwards.  The claimed behavior
(first imported, second skipped as a duplicate) is the intent the
constructor slip prevents. -/
theorem C7_duplicate_rows_never_imported :
    (import_projects_from_excel 0 "right" [acmeRow, acmeRow]
        emptyImportDB none).1.imported = 0 ∧
    (import_projects_from_excel 0 "right" [acmeRow, acmeRow]
        emptyImportDB none).1.skipped = 0 ∧
    (import_projects_from_excel 0 "right" [acmeRow, acmeRow]
        emptyImportDB none).1.errors =
      ["Row 1 (Acme): 'contract_appendix_url' is an invalid keyword argument for Project",
       "Row 2 (Acme): 'contract_appendix_url' is an invalid keyword argument for Project"] ∧
    (import_projects_from_excel 0 "right" [acmeRow, acmeRow]
        emptyImportDB none).2.projects = [] := by
  decide

/-- Claim C8: a registry row with an empty or missing client name only
increments the skipped counter (no project is created for it and
processing continues), and the imported count — of the loop and of the
whole import — equals the number of non-empty, non-duplicate, non-failing
rows of the batch; in this snapshot every parse-passing row then fails at
the ORM constructor, so that number, and with it the imported count, is 0
for every batch. -/
theorem C8_empty_rows_skipped_and_import_count (today : Int) (g : String) :
    (∀ (idx : Nat) (r : ExRow) (s : ImportState), nameOf r = none →
        stepRow today g idx r s =
          { s with stats := { s.stats with skipped := s.stats.skipped + 1 } }) ∧
    (∀ (rows : List ExRow) (idx : Nat) (s : ImportState),
        (processRows today g idx rows s).stats.imported =
          s.stats.imported + countImported today (sessionNames s) rows) ∧
    (∀ (rows : List ExRow) (db0 : ImportDB),
        (import_projects_from_excel today g rows db0 none).1.imported =
          countImported today (db0.projects.map (fun p => p.name)) rows) ∧
    (∀ (rows : List ExRow) (seen : List String),
        countImported today seen rows = 0) := by
  refine ⟨fun idx r s h => stepRow_empty_eq h,
          fun rows idx s => processRows_imported_count today g rows idx s, ?_,
          fun rows seen => countImported_eq_zero today rows seen⟩
  intro rows db0
  rw [import_runs_loop_only]
  dsimp only
  rw [processRows_imported_count]
  simp [initImportState, sessionNames]

/-- Witness for C8: a concrete blank-name row only bumps the skipped
counter. -/
theorem C8_empty_rows_skipped_and_import_count_witness :
    stepRow 0 "right" 0 emptyNameRow (initImportState [emptyNameRow] emptyImportDB) =
      { initImportState [emptyNameRow] emptyImportDB with
        stats := { (initImportState [emptyNameRow] emptyImportDB).stats with
          skipped := (initImportState [emptyNameRow] emptyImportDB).stats.skipped + 1 } } :=
  (C8_empty_rows_skipped_and_import_count 0 "right").1 0 emptyNameRow
    (initImportState [emptyNameRow] emptyImportDB) (by decide)

/-- Claim C10 (code bug): the commit and rollback machinery the claim
describes is dead code in this snapshot — the commit block is guarded
by imported > 0, and the imported counter stays 0 because every row fails at
the ORM constructor, so the import never commits, never rolls back, never
appends a commit-failure message, and returns the loop's result unchanged
for every commit outcome. -/
theorem C10_commit_never_reached (today : Int) (g : String) (rows : List ExRow)
    (db0 : ImportDB) (co : Option String) :
    (processRows today g 0 rows (initImportState rows db0)).stats.imported = 0 ∧
    import_projects_from_excel today g rows db0 co =
      ((processRows today g 0 rows (initImportState rows db0)).stats,
       (processRows today g 0 rows (initImportState rows db0)).db) :=
  ⟨processRows_imported today g rows 0 (initImportState rows db0),
   import_runs_loop_only today g rows db0 co⟩

end PaperPlanes

